import Mathlib

/-!
Shallow embedding of the tax-and-cash-flow engine of `expense_sheet.py`
(personal finance dashboard, 2025 tax year).  Currency amounts are modelled
as exact rationals; every definition mirrors the corresponding lines of the
Python source.
-/

/-- Filing status selector (source line 38). -/
inductive FilingStatus
| Single
| MarriedFilingJointly
deriving DecidableEq

/-- Static jurisdiction → flat rate table (source lines 13-25). -/
def STATE_TAX_RATES : List (String × ℚ) :=
[("None / No State Tax", 0),
 ("California", 93/1000),
 ("New York", 685/10000),
 ("Texas", 0),
 ("Florida", 0),
 ("Pennsylvania", 307/10000),
 ("Illinois", 495/10000),
 ("Ohio", 35/1000),
 ("Georgia", 549/10000),
 ("North Carolina", 475/10000),
 ("Michigan", 425/10000)]

/-- `STATE_TAX_RATES.get(state, 0.05)` (source lines 28-29). -/
def get_state_rate (state : String) : ℚ :=
match STATE_TAX_RATES.lookup state with
| some r => r
| none => 5/100

/-- Bracket tables `(low, high, rate)`; the last bracket's upper bound is the
taxable base itself (source lines 65-72). -/
def brackets (fs : FilingStatus) (taxable_base : ℚ) : List (ℚ × ℚ × ℚ) :=
match fs with
| .MarriedFilingJointly =>
    [(0, 23850, 10/100), (23850, 96950, 12/100), (96950, 206700, 22/100),
     (206700, 394600, 24/100), (394600, 501050, 32/100), (501050, 751600, 35/100),
     (751600, taxable_base, 37/100)]
| .Single =>
    [(0, 11925, 10/100), (11925, 48475, 12/100), (48475, 103350, 22/100),
     (103350, 197300, 24/100), (197300, 250525, 32/100), (250525, 626350, 35/100),
     (626350, taxable_base, 37/100)]

/-- The bracket accumulation loop (source lines 74-79): starting from
`prev = 0`, each bracket adds `(min taxable_base high - prev) * rate` when
`taxable_base > prev`, then sets `prev := high`.  The `low` component of each
triple is destructured but unused, exactly as in the source. -/
def fedTaxLoop (taxable_base : ℚ) : List (ℚ × ℚ × ℚ) → ℚ → ℚ
| [], _ => 0
| (_, high, rate) :: rest, prev =>
    (if taxable_base > prev then (min taxable_base high - prev) * rate else 0) +
      fedTaxLoop taxable_base rest high

/-- `fed_tax_full` as a function of filing status and taxable base
(source lines 62-79). -/
def fed_tax_full (fs : FilingStatus) (taxable_base : ℚ) : ℚ :=
fedTaxLoop taxable_base (brackets fs taxable_base) 0

/-- The numeric inputs the sidebar collects (source lines 38-49). -/
structure IncomeInput where
  filing_status : FilingStatus
  state : String
  gross_monthly_salary : ℚ
  gross_overtime_monthly : ℚ
  other_net_income : ℚ
deriving DecidableEq

/-- All derived tax quantities of one evaluation (source lines 52-103). -/
structure TaxResult where
  gross_annual_total : ℚ
  fica_annual : ℚ
  taxable_base : ℚ
  fed_tax_full : ℚ
  ot_deduction : ℚ
  fed_tax_savings : ℚ
  fed_tax_actual : ℚ
  state_tax : ℚ
  net_annual : ℚ
  net_monthly : ℚ
deriving DecidableEq

/-- The whole tax pipeline (source lines 52-103), one let-binding per source
statement. -/
def compute (inc : IncomeInput) : TaxResult :=
  let gross_annual_salary := inc.gross_monthly_salary * 12
  let gross_overtime_annual := inc.gross_overtime_monthly * 12
  let gross_annual_total := gross_annual_salary + gross_overtime_annual
  let ss_tax := min gross_annual_total 176100 * (62/1000)
  let medicare_tax := gross_annual_total * (145/10000)
  let fica_annual := ss_tax + medicare_tax
  let std_ded : ℚ := if inc.filing_status = .MarriedFilingJointly then 31500 else 15750
  let taxable_base := max 0 (gross_annual_total - std_ded)
  let ftf := fed_tax_full inc.filing_status taxable_base
  let premium_annual := gross_overtime_annual / 3
  let ot_cap : ℚ := if inc.filing_status = .MarriedFilingJointly then 25000 else 12500
  let phase_limit : ℚ := if inc.filing_status = .MarriedFilingJointly then 300000 else 150000
  let approx_magi := gross_annual_total
  let ot_deduction := if approx_magi < phase_limit then min premium_annual ot_cap else 0
  let fed_tax_savings :=
    ot_deduction * (if taxable_base > 0 then ftf / max taxable_base 1 else 22/100)
  let fed_tax_actual := ftf - fed_tax_savings
  let state_rate := get_state_rate inc.state
  let state_tax := gross_annual_total * state_rate
  let total_tax_annual := fica_annual + fed_tax_actual + state_tax
  let net_annual := gross_annual_total - total_tax_annual
  let net_monthly := net_annual / 12
  ⟨gross_annual_total, fica_annual, taxable_base, ftf, ot_deduction,
   fed_tax_savings, fed_tax_actual, state_tax, net_annual, net_monthly⟩

/-- Sum of the lifestyle expense amounts (source lines 125-130). -/
def total_lifestyle_expenses (expenses : List (String × ℚ)) : ℚ :=
(expenses.map Prod.snd).sum

/-- `total_take_home = net_monthly + other_net_income` (source line 103). -/
def total_take_home (inc : IncomeInput) : ℚ :=
(compute inc).net_monthly + inc.other_net_income

/-- `money_leftover` (source line 139). -/
def money_leftover (inc : IncomeInput) (expenses : List (String × ℚ))
    (planned_savings : ℚ) : ℚ :=
total_take_home inc - total_lifestyle_expenses expenses - planned_savings

/-- The four qualitative feedback buckets (source lines 197-204):
success, info, warning, error. -/
inductive Status
| Comfortable
| Adequate
| SlightlyOver
| Overspending
deriving DecidableEq

/-- The feedback cascade on `money_leftover` (source lines 197-204),
first match wins. -/
def status_feedback (leftover : ℚ) : Status :=
if leftover > 500 then .Comfortable
else if leftover > 0 then .Adequate
else if leftover > -500 then .SlightlyOver
else .Overspending

/-- The label column of the export table (source lines 211-213). -/
def category_col (expenses : List (String × ℚ)) : List String :=
["Gross Base Salary (Monthly)", "Gross Overtime (Monthly)",
 "Est. OBBBA Tax Savings (Monthly)", "Take-Home Pay", "Other Income",
 "Planned Savings & Investments"] ++
  expenses.map Prod.fst ++
  ["Total Lifestyle Expenses", "Money Leftover"]

/-- The amount column of the export table (source lines 214-216). -/
def amount_col (inc : IncomeInput) (expenses : List (String × ℚ))
    (planned_savings : ℚ) : List ℚ :=
[inc.gross_monthly_salary, inc.gross_overtime_monthly,
 (compute inc).fed_tax_savings / 12, (compute inc).net_monthly,
 inc.other_net_income, planned_savings] ++
  expenses.map Prod.snd ++
  [total_lifestyle_expenses expenses, money_leftover inc expenses planned_savings]

/-- The exported two-column table as rows, pairing the label column with the
amount column (source lines 210-217). -/
def df_export (inc : IncomeInput) (expenses : List (String × ℚ))
    (planned_savings : ℚ) : List (String × ℚ) :=
(category_col expenses).zip (amount_col inc expenses planned_savings)

/-! ### Helper lemmas about the bracket loop -/

/-- One regular bracket term is non-negative when the bracket is well formed. -/
lemma step_nonneg (p h r a : ℚ) (hph : p ≤ h) (hr : 0 ≤ r) :
    0 ≤ if a > p then (min a h - p) * r else 0 := by
  split_ifs with hap
  · exact mul_nonneg (sub_nonneg.mpr (le_min hap.le hph)) hr
  · exact le_refl 0

/-- The final bracket term (whose upper bound is the taxable base itself) is
non-negative. -/
lemma last_step_nonneg (p r a : ℚ) (hr : 0 ≤ r) :
    0 ≤ if a > p then (min a a - p) * r else 0 := by
  rw [min_self]
  split_ifs with hap
  · exact mul_nonneg (sub_nonneg.mpr hap.le) hr
  · exact le_refl 0

/-- One regular bracket term is monotone in the taxable base. -/
lemma step_mono (p h r : ℚ) (hph : p ≤ h) (hr : 0 ≤ r) {a b : ℚ} (hab : a ≤ b) :
    (if a > p then (min a h - p) * r else 0) ≤ (if b > p then (min b h - p) * r else 0) := by
  by_cases ha : a > p
  · rw [if_pos ha, if_pos (lt_of_lt_of_le ha hab)]
    exact mul_le_mul_of_nonneg_right
      (sub_le_sub_right (min_le_min hab (le_refl h)) p) hr
  · rw [if_neg ha]
    exact step_nonneg p h r b hph hr

/-- The final bracket term is monotone in the taxable base. -/
lemma last_step_mono (p r : ℚ) (hr : 0 ≤ r) {a b : ℚ} (hab : a ≤ b) :
    (if a > p then (min a a - p) * r else 0) ≤ (if b > p then (min b b - p) * r else 0) := by
  rw [min_self, min_self]
  by_cases ha : a > p
  · rw [if_pos ha, if_pos (lt_of_lt_of_le ha hab)]
    exact mul_le_mul_of_nonneg_right (sub_le_sub_right hab p) hr
  · rw [if_neg ha]
    split_ifs with hb
    · exact mul_nonneg (sub_nonneg.mpr hb.le) hr
    · exact le_refl 0

/-- `fed_tax_full` is monotone non-decreasing in the taxable base for a fixed
filing status. -/
lemma fed_tax_full_mono (fs : FilingStatus) {a b : ℚ} (hab : a ≤ b) :
    fed_tax_full fs a ≤ fed_tax_full fs b := by
  cases fs
  · simp only [fed_tax_full, brackets, fedTaxLoop]
    refine add_le_add (step_mono 0 11925 (10/100) (by norm_num) (by norm_num) hab) ?_
    refine add_le_add (step_mono 11925 48475 (12/100) (by norm_num) (by norm_num) hab) ?_
    refine add_le_add (step_mono 48475 103350 (22/100) (by norm_num) (by norm_num) hab) ?_
    refine add_le_add (step_mono 103350 197300 (24/100) (by norm_num) (by norm_num) hab) ?_
    refine add_le_add (step_mono 197300 250525 (32/100) (by norm_num) (by norm_num) hab) ?_
    refine add_le_add (step_mono 250525 626350 (35/100) (by norm_num) (by norm_num) hab) ?_
    exact add_le_add (last_step_mono 626350 (37/100) (by norm_num) hab) (le_refl 0)
  · simp only [fed_tax_full, brackets, fedTaxLoop]
    refine add_le_add (step_mono 0 23850 (10/100) (by norm_num) (by norm_num) hab) ?_
    refine add_le_add (step_mono 23850 96950 (12/100) (by norm_num) (by norm_num) hab) ?_
    refine add_le_add (step_mono 96950 206700 (22/100) (by norm_num) (by norm_num) hab) ?_
    refine add_le_add (step_mono 206700 394600 (24/100) (by norm_num) (by norm_num) hab) ?_
    refine add_le_add (step_mono 394600 501050 (32/100) (by norm_num) (by norm_num) hab) ?_
    refine add_le_add (step_mono 501050 751600 (35/100) (by norm_num) (by norm_num) hab) ?_
    exact add_le_add (last_step_mono 751600 (37/100) (by norm_num) hab) (le_refl 0)

/-- `fed_tax_full` is never negative. -/
lemma fed_tax_full_nonneg (fs : FilingStatus) (t : ℚ) : 0 ≤ fed_tax_full fs t := by
  cases fs
  · simp only [fed_tax_full, brackets, fedTaxLoop]
    refine add_nonneg (step_nonneg 0 11925 (10/100) t (by norm_num) (by norm_num)) ?_
    refine add_nonneg (step_nonneg 11925 48475 (12/100) t (by norm_num) (by norm_num)) ?_
    refine add_nonneg (step_nonneg 48475 103350 (22/100) t (by norm_num) (by norm_num)) ?_
    refine add_nonneg (step_nonneg 103350 197300 (24/100) t (by norm_num) (by norm_num)) ?_
    refine add_nonneg (step_nonneg 197300 250525 (32/100) t (by norm_num) (by norm_num)) ?_
    refine add_nonneg (step_nonneg 250525 626350 (35/100) t (by norm_num) (by norm_num)) ?_
    exact add_nonneg (last_step_nonneg 626350 (37/100) t (by norm_num)) (le_refl 0)
  · simp only [fed_tax_full, brackets, fedTaxLoop]
    refine add_nonneg (step_nonneg 0 23850 (10/100) t (by norm_num) (by norm_num)) ?_
    refine add_nonneg (step_nonneg 23850 96950 (12/100) t (by norm_num) (by norm_num)) ?_
    refine add_nonneg (step_nonneg 96950 206700 (22/100) t (by norm_num) (by norm_num)) ?_
    refine add_nonneg (step_nonneg 206700 394600 (24/100) t (by norm_num) (by norm_num)) ?_
    refine add_nonneg (step_nonneg 394600 501050 (32/100) t (by norm_num) (by norm_num)) ?_
    refine add_nonneg (step_nonneg 501050 751600 (35/100) t (by norm_num) (by norm_num)) ?_
    exact add_nonneg (last_step_nonneg 751600 (37/100) t (by norm_num)) (le_refl 0)

/-- A strictly positive taxable base always produces strictly positive full
federal tax: the first bracket already contributes. -/
lemma fed_tax_full_pos (fs : FilingStatus) (t : ℚ) (ht : 0 < t) :
    0 < fed_tax_full fs t := by
  cases fs
  · simp only [fed_tax_full, brackets, fedTaxLoop]
    refine add_pos_of_pos_of_nonneg ?_ ?_
    · rw [if_pos ht, sub_zero]
      exact mul_pos (lt_min ht (by norm_num)) (by norm_num)
    · refine add_nonneg (step_nonneg 11925 48475 (12/100) t (by norm_num) (by norm_num)) ?_
      refine add_nonneg (step_nonneg 48475 103350 (22/100) t (by norm_num) (by norm_num)) ?_
      refine add_nonneg (step_nonneg 103350 197300 (24/100) t (by norm_num) (by norm_num)) ?_
      refine add_nonneg (step_nonneg 197300 250525 (32/100) t (by norm_num) (by norm_num)) ?_
      refine add_nonneg (step_nonneg 250525 626350 (35/100) t (by norm_num) (by norm_num)) ?_
      exact add_nonneg (last_step_nonneg 626350 (37/100) t (by norm_num)) (le_refl 0)
  · simp only [fed_tax_full, brackets, fedTaxLoop]
    refine add_pos_of_pos_of_nonneg ?_ ?_
    · rw [if_pos ht, sub_zero]
      exact mul_pos (lt_min ht (by norm_num)) (by norm_num)
    · refine add_nonneg (step_nonneg 23850 96950 (12/100) t (by norm_num) (by norm_num)) ?_
      refine add_nonneg (step_nonneg 96950 206700 (22/100) t (by norm_num) (by norm_num)) ?_
      refine add_nonneg (step_nonneg 206700 394600 (24/100) t (by norm_num) (by norm_num)) ?_
      refine add_nonneg (step_nonneg 394600 501050 (32/100) t (by norm_num) (by norm_num)) ?_
      refine add_nonneg (step_nonneg 501050 751600 (35/100) t (by norm_num) (by norm_num)) ?_
      exact add_nonneg (last_step_nonneg 751600 (37/100) t (by norm_num)) (le_refl 0)

/-! ### Field equations of `compute`, each holding by definitional unfolding -/

lemma compute_gross_annual_total (inc : IncomeInput) :
    (compute inc).gross_annual_total =
      inc.gross_monthly_salary * 12 + inc.gross_overtime_monthly * 12 := rfl

lemma compute_taxable_base (inc : IncomeInput) :
    (compute inc).taxable_base =
      max 0 ((compute inc).gross_annual_total -
        (if inc.filing_status = .MarriedFilingJointly then 31500 else 15750)) := rfl

lemma compute_fed_tax_full_eq (inc : IncomeInput) :
    (compute inc).fed_tax_full =
      fed_tax_full inc.filing_status (compute inc).taxable_base := rfl

lemma compute_ot_deduction (inc : IncomeInput) :
    (compute inc).ot_deduction =
      if (compute inc).gross_annual_total <
          (if inc.filing_status = .MarriedFilingJointly then 300000 else 150000) then
        min (inc.gross_overtime_monthly * 12 / 3)
          (if inc.filing_status = .MarriedFilingJointly then 25000 else 12500)
      else 0 := rfl

lemma compute_fed_tax_savings (inc : IncomeInput) :
    (compute inc).fed_tax_savings =
      (compute inc).ot_deduction *
        (if (compute inc).taxable_base > 0 then
          (compute inc).fed_tax_full / max (compute inc).taxable_base 1
        else 22/100) := rfl

lemma compute_fed_tax_actual (inc : IncomeInput) :
    (compute inc).fed_tax_actual =
      (compute inc).fed_tax_full - (compute inc).fed_tax_savings := rfl

lemma compute_state_tax (inc : IncomeInput) :
    (compute inc).state_tax =
      (compute inc).gross_annual_total * get_state_rate inc.state := rfl

/-- The taxable base is clamped at zero. -/
lemma taxable_base_nonneg (inc : IncomeInput) : 0 ≤ (compute inc).taxable_base := by
  rw [compute_taxable_base]
  exact le_max_left _ _

/-- With non-negative overtime input the deduction is non-negative. -/
lemma ot_deduction_nonneg (inc : IncomeInput)
    (ho : 0 ≤ inc.gross_overtime_monthly) : 0 ≤ (compute inc).ot_deduction := by
  rw [compute_ot_deduction]
  have hp : 0 ≤ inc.gross_overtime_monthly * 12 / 3 :=
    div_nonneg (mul_nonneg ho (by norm_num)) (by norm_num)
  split_ifs <;> first
  | exact le_refl 0
  | exact le_min hp (by norm_num)

/-- The marginal-rate factor of line 92 is strictly positive. -/
lemma savings_rate_pos (inc : IncomeInput) :
    0 < (if (compute inc).taxable_base > 0 then
        (compute inc).fed_tax_full / max (compute inc).taxable_base 1
      else 22/100) := by
  split_ifs with h
  · refine div_pos ?_ (lt_of_lt_of_le one_pos (le_max_right _ _))
    rw [compute_fed_tax_full_eq]
    exact fed_tax_full_pos _ _ h
  · norm_num

/-- The two filing statuses are distinct constructors. -/
lemma Single_ne_MFJ : FilingStatus.Single ≠ FilingStatus.MarriedFilingJointly :=
  fun h => nomatch h

/-! ### C1 -/

/-- C1 counterexample: for the Single filer with no base salary and $1000/mo
overtime, the taxable base is zero, so `federalTaxFull = 0`, yet the fallback
0.22 rate applied to the $4000 deduction gives `federalTaxSavings = 880`;
the claimed invariant `federalTaxSavings ≤ federalTaxFull` fails. -/
theorem fed_tax_savings_can_exceed_full :
    (compute ⟨.Single, "Texas", 0, 1000, 0⟩).fed_tax_full <
      (compute ⟨.Single, "Texas", 0, 1000, 0⟩).fed_tax_savings := by
  norm_num [compute, fed_tax_full, brackets, fedTaxLoop, min_def, max_def,
    Single_ne_MFJ, (show get_state_rate "Texas" = 0 from rfl)]

/-- C1, amended: for every non-negative input, `federalTaxActual =
federalTaxFull - federalTaxSavings`; and `federalTaxSavings ≤ federalTaxFull`
holds whenever `overtimeDeduction ≤ taxableBase`. -/
theorem fed_tax_actual_decomposition (inc : IncomeInput)
    (hs : 0 ≤ inc.gross_monthly_salary) (ho : 0 ≤ inc.gross_overtime_monthly)
    (hn : 0 ≤ inc.other_net_income) :
    (compute inc).fed_tax_actual =
        (compute inc).fed_tax_full - (compute inc).fed_tax_savings ∧
      ((compute inc).ot_deduction ≤ (compute inc).taxable_base →
        (compute inc).fed_tax_savings ≤ (compute inc).fed_tax_full) := by
  refine ⟨compute_fed_tax_actual inc, fun hd => ?_⟩
  have hff : 0 ≤ (compute inc).fed_tax_full := by
    rw [compute_fed_tax_full_eq]
    exact fed_tax_full_nonneg _ _
  by_cases h : (compute inc).taxable_base > 0
  · rw [compute_fed_tax_savings, if_pos h]
    have hm1 : (1:ℚ) ≤ max (compute inc).taxable_base 1 := le_max_right _ _
    have hm : (0:ℚ) < max (compute inc).taxable_base 1 := lt_of_lt_of_le one_pos hm1
    have hq : 0 ≤ (compute inc).fed_tax_full / max (compute inc).taxable_base 1 :=
      div_nonneg hff hm.le
    calc (compute inc).ot_deduction *
          ((compute inc).fed_tax_full / max (compute inc).taxable_base 1)
        ≤ (compute inc).taxable_base *
          ((compute inc).fed_tax_full / max (compute inc).taxable_base 1) :=
          mul_le_mul_of_nonneg_right hd hq
      _ ≤ max (compute inc).taxable_base 1 *
          ((compute inc).fed_tax_full / max (compute inc).taxable_base 1) :=
          mul_le_mul_of_nonneg_right (le_max_left _ _) hq
      _ = (compute inc).fed_tax_full := mul_div_cancel₀ _ hm.ne'
  · have htb0 : (compute inc).taxable_base = 0 :=
      le_antisymm (not_lt.mp h) (taxable_base_nonneg inc)
    have hd0 : (compute inc).ot_deduction = 0 :=
      le_antisymm (htb0 ▸ hd) (ot_deduction_nonneg inc ho)
    rw [compute_fed_tax_savings, hd0, zero_mul]
    exact hff

/-- C1 witness: the theorem applied to the default Single input
(base $8000/mo, no overtime), where the deduction 0 is at most the taxable
base 80250. -/
theorem fed_tax_actual_decomposition_witness :
    (compute ⟨.Single, "California", 8000, 0, 0⟩).fed_tax_savings ≤
      (compute ⟨.Single, "California", 8000, 0, 0⟩).fed_tax_full :=
  (fed_tax_actual_decomposition ⟨.Single, "California", 8000, 0, 0⟩
    (by norm_num) (by norm_num) (by norm_num)).2
    (by norm_num [compute, fed_tax_full, brackets, fedTaxLoop, min_def, max_def,
      Single_ne_MFJ, (show get_state_rate "California" = 93/1000 from rfl)])

/-! ### C2 -/

/-- C2 counterexample: the feedback cascade sends leftover 0 to the warning
bucket (SlightlyOver), not Adequate, and leftover -500 to the error bucket
(Overspending), not SlightlyOver. -/
theorem status_boundary_misstated :
    status_feedback 0 ≠ Status.Adequate ∧
      status_feedback (-500) ≠ Status.SlightlyOver := by decide

/-- C2, amended: leftover 500 is Adequate (not Comfortable), leftover 0 is
SlightlyOver (not Adequate), and leftover -500 is Overspending (not
SlightlyOver): each boundary value falls to the next, more severe bucket. -/
theorem status_boundary_values :
    status_feedback 500 = Status.Adequate ∧
      status_feedback 0 = Status.SlightlyOver ∧
      status_feedback (-500) = Status.Overspending := by decide

/-! ### C3 -/

/-- C3 counterexample: zero base salary and overtime of 31501/24 per month
give taxable base 1/2, which is positive, but the code divides by
`max(taxableBase, 1) = 1`, so the savings differ from
`overtimeDeduction × federalTaxFull / taxableBase`. -/
theorem fed_tax_savings_denominator_cex :
    (compute ⟨.Single, "Texas", 0, 31501/24, 0⟩).taxable_base > 0 ∧
      (compute ⟨.Single, "Texas", 0, 31501/24, 0⟩).fed_tax_savings ≠
        (compute ⟨.Single, "Texas", 0, 31501/24, 0⟩).ot_deduction *
          ((compute ⟨.Single, "Texas", 0, 31501/24, 0⟩).fed_tax_full /
            (compute ⟨.Single, "Texas", 0, 31501/24, 0⟩).taxable_base) := by
  norm_num [compute, fed_tax_full, brackets, fedTaxLoop, min_def, max_def,
    Single_ne_MFJ, (show get_state_rate "Texas" = 0 from rfl)]

/-- C3, amended: for every input, `federalTaxSavings = overtimeDeduction ×
(federalTaxFull / max(taxableBase, 1))` whenever `taxableBase > 0`, and
`federalTaxSavings = overtimeDeduction × 0.22` when `taxableBase = 0`. -/
theorem fed_tax_savings_rate_formula (inc : IncomeInput) :
    ((compute inc).taxable_base > 0 →
      (compute inc).fed_tax_savings =
        (compute inc).ot_deduction *
          ((compute inc).fed_tax_full / max (compute inc).taxable_base 1)) ∧
    ((compute inc).taxable_base = 0 →
      (compute inc).fed_tax_savings = (compute inc).ot_deduction * (22/100)) := by
  constructor
  · intro h
    rw [compute_fed_tax_savings, if_pos h]
  · intro h
    rw [compute_fed_tax_savings, if_neg (h ▸ lt_irrefl (0:ℚ))]

/-- C3 witness: the positive-base branch evaluated at the default Single
input, whose taxable base is 80250. -/
theorem fed_tax_savings_rate_formula_witness :
    (compute ⟨.Single, "California", 8000, 0, 0⟩).fed_tax_savings =
      (compute ⟨.Single, "California", 8000, 0, 0⟩).ot_deduction *
        ((compute ⟨.Single, "California", 8000, 0, 0⟩).fed_tax_full /
          max (compute ⟨.Single, "California", 8000, 0, 0⟩).taxable_base 1) :=
  (fed_tax_savings_rate_formula ⟨.Single, "California", 8000, 0, 0⟩).1
    (by norm_num [compute, min_def, max_def, Single_ne_MFJ])

/-! ### C10 -/

/-- C10: net monthly pay is not monotone in gross overtime.  A Single filer
with base salary $9375/mo earns strictly less net per month at $3200/mo
overtime than at $3120/mo: crossing the $150000 phase-out threshold zeroes
the overtime deduction while gross income rises only marginally. -/
theorem net_monthly_not_monotone_in_overtime :
    (3120 : ℚ) < 3200 ∧
      (compute ⟨.Single, "Texas", 9375, 3200, 0⟩).net_monthly <
        (compute ⟨.Single, "Texas", 9375, 3120, 0⟩).net_monthly := by
  refine ⟨by norm_num, ?_⟩
  norm_num [compute, fed_tax_full, brackets, fedTaxLoop, min_def, max_def,
    Single_ne_MFJ, (show get_state_rate "Texas" = 0 from rfl)]

/-! ### C4 -/

/-- Zipping the projections of a pair list against appended tails recovers the
pair list followed by the zip of the tails. -/
lemma zip_map_fst_snd_append {α β : Type} (e : List (α × β)) (l : List α)
    (m : List β) :
    (e.map Prod.fst ++ l).zip (e.map Prod.snd ++ m) = e ++ l.zip m := by
  induction e with
  | nil => simp
  | cons p t ih => simp [ih]

/-- The export row shape read literally from the interface section of the
specification: one row per expense category first, then the eight summary
rows for gross base salary, gross overtime, estimated monthly tax savings,
take-home pay, other income, planned savings, total expenses, and leftover,
in that order. -/
def df_export_spec_order (inc : IncomeInput) (expenses : List (String × ℚ))
    (planned_savings : ℚ) : List (String × ℚ) :=
expenses ++
  [("Gross Base Salary (Monthly)", inc.gross_monthly_salary),
   ("Gross Overtime (Monthly)", inc.gross_overtime_monthly),
   ("Est. OBBBA Tax Savings (Monthly)", (compute inc).fed_tax_savings / 12),
   ("Take-Home Pay", (compute inc).net_monthly),
   ("Other Income", inc.other_net_income),
   ("Planned Savings & Investments", planned_savings),
   ("Total Lifestyle Expenses", total_lifestyle_expenses expenses),
   ("Money Leftover", money_leftover inc expenses planned_savings)]

/-- C4 counterexample: with a single Housing expense row, the exported table
does not put the expense-category row first; its first row is the gross base
salary summary, so the claimed row order fails. -/
theorem df_export_order_cex :
    df_export ⟨.Single, "Texas", 8000, 0, 0⟩ [("Housing (Rent/Mortgage)", 2000)] 800 ≠
      df_export_spec_order ⟨.Single, "Texas", 8000, 0, 0⟩
        [("Housing (Rent/Mortgage)", 2000)] 800 := by
  intro h
  have h0 := congrArg (fun l => (l.head?.map Prod.fst)) h
  simp [df_export, df_export_spec_order, category_col, amount_col] at h0

/-- C4, amended: the exported table is the six summary rows — gross base
salary, gross overtime, estimated monthly tax savings, take-home pay, other
income, planned savings — in that order, followed by one (label, amount) row
per expense category, followed by the total-expenses and leftover rows, with
each amount equal to the corresponding computed field. -/
theorem df_export_rows (inc : IncomeInput) (expenses : List (String × ℚ))
    (ps : ℚ) :
    df_export inc expenses ps =
      [("Gross Base Salary (Monthly)", inc.gross_monthly_salary),
       ("Gross Overtime (Monthly)", inc.gross_overtime_monthly),
       ("Est. OBBBA Tax Savings (Monthly)", (compute inc).fed_tax_savings / 12),
       ("Take-Home Pay", (compute inc).net_monthly),
       ("Other Income", inc.other_net_income),
       ("Planned Savings & Investments", ps)] ++
        expenses ++
        [("Total Lifestyle Expenses", total_lifestyle_expenses expenses),
         ("Money Leftover", money_leftover inc expenses ps)] := by
  simp [df_export, category_col, amount_col, zip_map_fst_snd_append]

/-! ### C5 -/

/-- C5: the overtime deduction is `min(grossOvertimeAnnual/3, cap)` when the
annual gross total is strictly below the filing-status phase-out threshold
(150000 Single with cap 12500, 300000 Married Filing Jointly with cap 25000),
and exactly 0 once the total reaches the threshold: a cliff. -/
theorem ot_deduction_cliff (inc : IncomeInput) :
    ((compute inc).gross_annual_total <
        (if inc.filing_status = FilingStatus.MarriedFilingJointly
          then 300000 else 150000) →
      (compute inc).ot_deduction =
        min (inc.gross_overtime_monthly * 12 / 3)
          (if inc.filing_status = FilingStatus.MarriedFilingJointly
            then 25000 else 12500)) ∧
    ((if inc.filing_status = FilingStatus.MarriedFilingJointly
        then (300000 : ℚ) else 150000) ≤ (compute inc).gross_annual_total →
      (compute inc).ot_deduction = 0) := by
  constructor
  · intro h
    rw [compute_ot_deduction, if_pos h]
  · intro h
    rw [compute_ot_deduction, if_neg (not_lt.mpr h)]

/-- C5 witness: just below the Single threshold ($149940 gross) the deduction
is the uncapped premium $12480; just above ($150900 gross) it is 0. -/
theorem ot_deduction_cliff_witness :
    (compute ⟨.Single, "Texas", 9375, 3120, 0⟩).ot_deduction = 12480 ∧
      (compute ⟨.Single, "Texas", 9375, 3200, 0⟩).ot_deduction = 0 := by
  constructor
  · have h := (ot_deduction_cliff ⟨.Single, "Texas", 9375, 3120, 0⟩).1
      (by norm_num [compute, Single_ne_MFJ])
    rw [h]
    norm_num [min_def, Single_ne_MFJ]
  · exact (ot_deduction_cliff ⟨.Single, "Texas", 9375, 3200, 0⟩).2
      (by norm_num [compute, Single_ne_MFJ])

/-! ### C6 -/

/-- C6: for a fixed filing status the full federal tax is monotone
non-decreasing in the taxable base, and the boundary dollar is taxed at the
lower bracket's rate: a Single taxable base of 11925 yields exactly
11925 × 0.10 = 1192.50. -/
theorem fed_tax_full_monotone_and_boundary :
    (∀ (fs : FilingStatus) (a b : ℚ), a ≤ b →
        fed_tax_full fs a ≤ fed_tax_full fs b) ∧
      fed_tax_full FilingStatus.Single 11925 = 2385/2 := by
  constructor
  · exact fun fs a b hab => fed_tax_full_mono fs hab
  · norm_num [fed_tax_full, brackets, fedTaxLoop, min_def]

/-- C6 witness: monotonicity applied at the concrete bases 100000 ≤ 134190. -/
theorem fed_tax_full_monotone_and_boundary_witness :
    fed_tax_full FilingStatus.Single 100000 ≤ fed_tax_full FilingStatus.Single 134190 :=
  fed_tax_full_monotone_and_boundary.1 FilingStatus.Single 100000 134190 (by norm_num)

/-! ### C7 -/

/-- C7: for every non-negative input, `federalTaxActual ≤ federalTaxFull`,
with equality exactly when the overtime deduction is zero (the marginal-rate
factor of line 92 is always strictly positive). -/
theorem fed_tax_actual_le_full_iff (inc : IncomeInput)
    (hs : 0 ≤ inc.gross_monthly_salary) (ho : 0 ≤ inc.gross_overtime_monthly)
    (hn : 0 ≤ inc.other_net_income) :
    (compute inc).fed_tax_actual ≤ (compute inc).fed_tax_full ∧
      ((compute inc).fed_tax_actual = (compute inc).fed_tax_full ↔
        (compute inc).ot_deduction = 0) := by
  have hrate := savings_rate_pos inc
  have hded := ot_deduction_nonneg inc ho
  have hsav : 0 ≤ (compute inc).fed_tax_savings := by
    rw [compute_fed_tax_savings]
    exact mul_nonneg hded hrate.le
  constructor
  · rw [compute_fed_tax_actual]
    linarith
  · rw [compute_fed_tax_actual]
    constructor
    · intro h
      have h0 : (compute inc).fed_tax_savings = 0 := by linarith
      rw [compute_fed_tax_savings] at h0
      rcases mul_eq_zero.mp h0 with h1 | h1
      · exact h1
      · exact absurd h1 hrate.ne'
    · intro h
      rw [compute_fed_tax_savings, h, zero_mul, sub_zero]

/-- C7 witness: the theorem applied to a Single filer with $8000 base,
$500 overtime and $100 other income per month. -/
theorem fed_tax_actual_le_full_iff_witness :
    (compute ⟨.Single, "California", 8000, 500, 100⟩).fed_tax_actual ≤
        (compute ⟨.Single, "California", 8000, 500, 100⟩).fed_tax_full ∧
      ((compute ⟨.Single, "California", 8000, 500, 100⟩).fed_tax_actual =
          (compute ⟨.Single, "California", 8000, 500, 100⟩).fed_tax_full ↔
        (compute ⟨.Single, "California", 8000, 500, 100⟩).ot_deduction = 0) :=
  fed_tax_actual_le_full_iff ⟨.Single, "California", 8000, 500, 100⟩
    (by norm_num) (by norm_num) (by norm_num)

/-! ### C8 -/

/-- C8: the feedback cascade realises exactly the four-bucket classification:
Comfortable above 500, Adequate on (0, 500], SlightlyOver on (-500, 0],
Overspending at or below -500. -/
theorem status_feedback_classification (l : ℚ) :
    (l > 500 → status_feedback l = Status.Comfortable) ∧
    (0 < l ∧ l ≤ 500 → status_feedback l = Status.Adequate) ∧
    (-500 < l ∧ l ≤ 0 → status_feedback l = Status.SlightlyOver) ∧
    (l ≤ -500 → status_feedback l = Status.Overspending) := by
  refine ⟨fun h => ?_, fun h => ?_, fun h => ?_, fun h => ?_⟩ <;>
    unfold status_feedback
  · rw [if_pos h]
  · rw [if_neg (not_lt.mpr h.2), if_pos h.1]
  · rw [if_neg (not_lt.mpr (h.2.trans (by norm_num : (0:ℚ) ≤ 500))),
        if_neg (not_lt.mpr h.2), if_pos h.1]
  · rw [if_neg (not_lt.mpr (h.trans (by norm_num : (-500:ℚ) ≤ 500))),
        if_neg (not_lt.mpr (h.trans (by norm_num : (-500:ℚ) ≤ 0))),
        if_neg (not_lt.mpr h)]

/-- C8 witness: one representative leftover per bucket. -/
theorem status_feedback_classification_witness :
    status_feedback 600 = Status.Comfortable ∧
      status_feedback 300 = Status.Adequate ∧
      status_feedback (-100) = Status.SlightlyOver ∧
      status_feedback (-900) = Status.Overspending :=
  ⟨(status_feedback_classification 600).1 (by norm_num),
   (status_feedback_classification 300).2.1 ⟨by norm_num, by norm_num⟩,
   (status_feedback_classification (-100)).2.2.1 ⟨by norm_num, by norm_num⟩,
   (status_feedback_classification (-900)).2.2.2 (by norm_num)⟩

/-! ### C9 -/

/-- C9: `get_state_rate` is total: it returns the table rate for every listed
state and the default 0.05 for every other identifier, and the state tax of
every computation is `grossAnnualTotal × get_state_rate state`. -/
theorem get_state_rate_total_lookup (s : String) :
    (∀ r : ℚ, STATE_TAX_RATES.lookup s = some r → get_state_rate s = r) ∧
    (STATE_TAX_RATES.lookup s = none → get_state_rate s = 5/100) ∧
    (∀ inc : IncomeInput, inc.state = s →
      (compute inc).state_tax = (compute inc).gross_annual_total * get_state_rate s) := by
  refine ⟨fun r h => ?_, fun h => ?_, fun inc h => ?_⟩
  · unfold get_state_rate
    rw [h]
  · unfold get_state_rate
    rw [h]
  · rw [← h]
    exact compute_state_tax inc

/-- C9 witness: a listed state maps to its table rate and an unrecognized
jurisdiction maps to the 0.05 default. -/
theorem get_state_rate_total_lookup_witness :
    get_state_rate "California" = 93/1000 ∧ get_state_rate "Atlantis" = 5/100 :=
  ⟨(get_state_rate_total_lookup "California").1 (93/1000) rfl,
   (get_state_rate_total_lookup "Atlantis").2.1 rfl⟩
